import Mathlib

/-!
# Verification of the whisper-realtime-transcriber core

Shallow embedding of the streaming transcription server:
* `backend/lib/audio_processing.py` — `AudioBuffer.add_audio` (segmenter) and
  `WhisperTranscriber.is_valid_transcription` (validity filter);
* `backend/services/websocket_service.py` — the transcription queue worker,
  broadcasting, queue-status events and the summarize request handler;
* `backend/lib/ai_integration.py` / `backend/lib/notion_integration.py` —
  the summarization / export collaborators at their interface boundary.

Python strings are modelled as `List Char`, wall-clock times and audio
samples as `ℚ`.  NumPy `sqrt(mean(x**2))` level comparisons are modelled by
comparing the mean square against the squared threshold: for a nonnegative
threshold `t` (all configured thresholds are positive), `sqrt m < t ↔ m < t^2`,
so the branch structure is unchanged while staying inside exact arithmetic.
-/

namespace WhisperRT

/-! ## Validity filter (`WhisperTranscriber.is_valid_transcription`) -/

/-- Configuration fields of `WhisperTranscriber` relevant to
`is_valid_transcription` (audio_processing.py, `__init__`). -/
structure Transcriber where
  min_text_length : ℕ
  max_text_length : ℕ
  max_repetition_chars : ℕ
  max_repetition_words : ℕ
deriving DecidableEq

/-- Defaults from the constructor / `config.py`:
`min_text_length=2, max_text_length=2000, max_repetition_chars=4,
max_repetition_words=2`. -/
def defaultTranscriber : Transcriber :=
  { min_text_length := 2, max_text_length := 2000
    max_repetition_chars := 4, max_repetition_words := 2 }

/-- Python `str.strip()`: drop leading and trailing whitespace. -/
def pyStrip (s : List Char) : List Char :=
  ((s.dropWhile Char.isWhitespace).reverse.dropWhile Char.isWhitespace).reverse

/-- Python `str.split()` with no argument: split on runs of whitespace,
discarding empty pieces. -/
def pySplit (s : List Char) : List (List Char) :=
  (s.splitOnP Char.isWhitespace).filter (· ≠ [])

/-- The character-repetition loop of `is_valid_transcription`
(audio_processing.py lines 103–107):

```
for i in range(len(text) - self.max_repetition_chars):
    if text[i] == text[i + 1] == text[i + 2] == text[i + 3]:
        if self.max_repetition_chars == 4:
            return False
```

Note the loop bound is `len(text) - max_repetition_chars`, not
`... - max_repetition_chars + 1`, so a window of four identical characters
that ends exactly at the last character is never examined.  The window width
is hardwired to 4 and the rejection is further gated on
`max_repetition_chars == 4`.  (For the default configuration every examined
index is in range; Python would raise `IndexError` for configurations
< 3, which we render total with `getD`.) -/
def charRepReject (cfg : Transcriber) (t : List Char) : Bool :=
  (List.range (t.length - cfg.max_repetition_chars)).any fun i =>
    (t.getD i ' ' == t.getD (i + 1) ' ' && t.getD (i + 1) ' ' == t.getD (i + 2) ' '
      && t.getD (i + 2) ' ' == t.getD (i + 3) ' ')
    && (cfg.max_repetition_chars == 4)

/-- The word-repetition check of `is_valid_transcription`
(audio_processing.py lines 109–114):

```
words = text.split()
if len(words) >= self.max_repetition_words * 2:
    for i in range(len(words) - self.max_repetition_words):
        if all(words[i] == words[i + j] for j in range(1, self.max_repetition_words + 1)):
            return False
```
-/
def wordRepReject (cfg : Transcriber) (ws : List (List Char)) : Bool :=
  if cfg.max_repetition_words * 2 ≤ ws.length then
    (List.range (ws.length - cfg.max_repetition_words)).any fun i =>
      (List.range' 1 cfg.max_repetition_words).all fun j =>
        ws.getD i [] == ws.getD (i + j) []
  else false

/-- `^(um|uh|ah|oh|mm|hmm)\s*$` style full match (one alternative followed by
optional whitespace), with `re.IGNORECASE` handled by lowercasing. -/
def fillerMatch (w : List Char) (t : List Char) : Bool :=
  ((t.map Char.toLower).take w.length == w) && (t.drop w.length).all Char.isWhitespace

/-- Characters of the regex class `[!@#$%^&*(),.?":{}|<>]` (symbols-only noise
pattern). -/
def symbolChars : List Char :=
  ['!', '@', '#', '$', '%', '^', '&', '*', '(', ')', ',', '.', '?', '"', ':',
   '\x7b', '\x7d', '|', '<', '>']

/-- The `noise_patterns` loop of `is_valid_transcription`
(audio_processing.py lines 116–129), `re.match(p, text, re.IGNORECASE)` on the
trimmed text for each pattern; all patterns are anchored full matches. -/
def noiseReject (t : List Char) : Bool :=
  -- ^[a-zA-Z]$ : single letter
  (t.length == 1 && t.all Char.isAlpha)
  -- ^\d+$ : numbers only
  || (!t.isEmpty && t.all Char.isDigit)
  -- ^[!@#$%^&*(),.?":{}|<>]+$ : symbols only
  || (!t.isEmpty && t.all (symbolChars.contains ·))
  -- ^(あ|い|う|え|お|ん|っ|。|、)+$ : Japanese single characters
  || (!t.isEmpty && t.all (['あ', 'い', 'う', 'え', 'お', 'ん', 'っ', '。', '、'].contains ·))
  -- ^(um|uh|ah|oh|mm|hmm)\s*$ : English filler words
  || (["um", "uh", "ah", "oh", "mm", "hmm"].map String.toList).any (fillerMatch · t)
  -- ^(えー|あー|うー|んー|あの|その|まあ)\s*$ : Japanese filler words
  || (["えー", "あー", "うー", "んー", "あの", "その", "まあ"].map String.toList).any (fillerMatch · t)
  -- ^\s*$ : whitespace only
  || t.all Char.isWhitespace

/-- `WhisperTranscriber.is_valid_transcription` (audio_processing.py lines
92–131).  The Python body is a sequence of early `return False` guards on
`text.strip()` followed by `return True`, which we render as a chain of
conditionals. -/
def is_valid_transcription (cfg : Transcriber) (text : List Char) : Bool :=
  -- `if not text or len(text.strip()) < self.min_text_length: return False`
  if text.isEmpty || decide ((pyStrip text).length < cfg.min_text_length) then false
  -- `if len(text) > self.max_text_length: return False` (on the trimmed text)
  else if decide (cfg.max_text_length < (pyStrip text).length) then false
  else if charRepReject cfg (pyStrip text) then false
  else if wordRepReject cfg (pySplit (pyStrip text)) then false
  else if noiseReject (pyStrip text) then false
  else true

/-! ## Segmenter (`AudioBuffer.add_audio`) -/

/-- `x * x`; NumPy `x ** 2`. -/
def sq (x : ℚ) : ℚ := x * x

/-- Mean of the squared samples, `np.mean(data ** 2)`.  The audio level of
`data` is `sqrt (meanSq data)`; comparisons against a threshold `t ≥ 0` are
carried out on squares (`sqrt m < t ↔ m < t * t`).  (On an empty batch NumPy
yields `NaN`, every comparison with which is false; the claims only concern
nonempty batches.) -/
def meanSq (data : List ℚ) : ℚ := (data.map sq).sum / data.length

/-- `AudioBuffer` (audio_processing.py lines 15–30): configuration plus the
two pieces of mutable state, the accumulation buffer `audio_chunk` and the
silence-run counter `current_silence_count`. -/
structure AudioBuffer where
  sample_rate : ℕ
  silence_threshold : ℚ
  silence_duration : ℚ
  min_audio_level : ℚ
  max_audio_chunk_duration : ℕ
  current_silence_count : ℕ
  audio_chunk : List ℚ
deriving DecidableEq

/-- `self.silence_frames = int(self.silence_duration * self.sample_rate)`. -/
def AudioBuffer.silence_frames (b : AudioBuffer) : ℕ :=
  (b.silence_duration * (b.sample_rate : ℚ)).floor.toNat

/-- `self.min_chunk_length = int(0.5 * self.sample_rate)`. -/
def AudioBuffer.min_chunk_length (b : AudioBuffer) : ℕ :=
  ((1 / 2 : ℚ) * (b.sample_rate : ℚ)).floor.toNat

/-- `AudioBuffer.add_audio` (audio_processing.py lines 32–71).  Returns the
updated buffer state and the emitted chunk, if any.

* `audio_level < silence_threshold` extends the silence run by the batch
  length, otherwise resets it to zero; the batch is always appended.
* If the silence run has reached `silence_frames` and the buffer holds at
  least `min_chunk_length` samples: with whole-buffer level above
  `min_audio_level` the entire buffer is emitted and the state reset;
  otherwise the state is reset and nothing is emitted (in the Python source
  control then falls through to the forced-split check, which on the
  now-empty buffer is vacuously false, so `None` is returned).
* Otherwise, if the buffer holds strictly more than
  `sample_rate * max_audio_chunk_duration` samples it is emitted whole
  (forced split) and the state reset; else the call returns nothing and the
  extended buffer and updated counter persist. -/
def add_audio (b : AudioBuffer) (data : List ℚ) : AudioBuffer × Option (List ℚ) :=
  if b.silence_frames ≤
        (if meanSq data < sq b.silence_threshold
         then b.current_silence_count + data.length else 0)
      ∧ b.min_chunk_length ≤ (b.audio_chunk ++ data).length then
    if sq b.min_audio_level < meanSq (b.audio_chunk ++ data) then
      ({ b with audio_chunk := [], current_silence_count := 0 },
       some (b.audio_chunk ++ data))
    else
      ({ b with audio_chunk := [], current_silence_count := 0 }, none)
  else if b.sample_rate * b.max_audio_chunk_duration < (b.audio_chunk ++ data).length then
    ({ b with audio_chunk := [], current_silence_count := 0 },
     some (b.audio_chunk ++ data))
  else
    ({ b with
        audio_chunk := b.audio_chunk ++ data,
        current_silence_count :=
          if meanSq data < sq b.silence_threshold
          then b.current_silence_count + data.length else 0 }, none)

/-! ## WebSocket server (`websocket_service.py`) -/

/-- `TranscriptionRecord`: one entry of `self.full_transcription`
(websocket_service.py lines 64–68). -/
structure TranscriptionRecord where
  text : List Char
  timestamp : ℚ
deriving DecidableEq

/-- A `TranscriptionTask` as placed on `self.transcription_queue`
(websocket_service.py lines 213–221). -/
structure Task where
  audio_chunk : List ℚ
  server_timestamp : ℚ
  queue_id : ℕ
deriving DecidableEq

/-- Broadcast events relevant to the claims.  `queue_id` on a
`transcription` event is optional because the source only adds the field
when one was supplied (websocket_service.py lines 77–78). -/
inductive Event where
  | transcription (text : List Char) (server_timestamp : ℚ)
      (client_timestamp : ℚ) (queue_id : Option ℕ)
  | queue_status (processing_count : ℤ) (pending_count : ℤ)
      (currently_processing : Bool) (timestamp : ℚ)
deriving DecidableEq

/-- The pieces of `WebSocketServer` state the claims touch (clients as
opaque handles `ℕ`; the pending queue in FIFO order, head next to be
taken). -/
structure ServerState where
  clients : List ℕ
  queue : List Task
  full_transcription : List TranscriptionRecord
  currently_processing : Bool
  queue_id_counter : ℕ
deriving DecidableEq

/-- `WebSocketServer.broadcast_message` (websocket_service.py lines 86–100),
with a send to a closed peer abstracted by the predicate `closed`.  The loop
sends to every client, collecting those whose send raised
`ConnectionClosed` into `disconnected`, then discards each of them from the
client set.  Returns (clients that received the message, remaining client
set). -/
def broadcast_message (clients : List ℕ) (closed : ℕ → Bool) : List ℕ × List ℕ :=
  if clients.isEmpty then ([], clients)
  else
    (clients.filter (fun c => !closed c),
     clients.removeAll (clients.filter closed))

/-- `WebSocketServer.broadcast_queue_status` (websocket_service.py lines
230–244): `pending_tasks = qsize()`, `total_tasks = pending + (1 if
currently_processing else 0)`; the event carries `processing_count =
total_tasks` and `pending_count = pending_tasks`. -/
def broadcast_queue_status (s : ServerState) (now : ℚ) : Event :=
  .queue_status
    ((s.queue.length : ℤ) + (if s.currently_processing then 1 else 0))
    (s.queue.length : ℤ) s.currently_processing now

/-- `WebSocketServer.broadcast_transcription` (websocket_service.py lines
56–84).  Only `if self.clients and text.strip()` does it append the record
and broadcast; `server_timestamp` is the worker-supplied enqueue-time stamp
(the `None` default is unused by the worker), `now` models the
`time.time()` read for `client_timestamp`.  The trailing
`finish_transcription_task` call only logs. -/
def broadcast_transcription (s : ServerState) (text : List Char)
    (server_timestamp : ℚ) (now : ℚ) (queue_id : Option ℕ) :
    ServerState × List Event :=
  if ¬s.clients.isEmpty ∧ ¬(pyStrip text).isEmpty then
    ({ s with full_transcription :=
        s.full_transcription ++ [⟨text, server_timestamp⟩] },
     [Event.transcription text server_timestamp now queue_id])
  else (s, [])

/-- One iteration of `WebSocketServer.queue_worker` (websocket_service.py
lines 301–350) on a task `t` already taken from the queue (so `s.queue` is
the remaining backlog).  `outcome` is the result of
`run_in_executor(None, transcriber.transcribe, chunk)`: `Except.error` if
the call raised, `Except.ok text` otherwise (`transcribe` itself maps its
own internal failures and filtered results to `""`).  `n1 n2 n3` model the
successive `time.time()` reads.  The iteration sets
`currently_processing := true`, broadcasts queue status, broadcasts the
transcription when `text and text.strip()` is truthy, logs otherwise,
then resets `currently_processing := false` and broadcasts status again;
an exception in the engine call is logged and otherwise ignored. -/
def workerStep (s : ServerState) (t : Task)
    (outcome : Except (List Char) (List Char)) (n1 n2 n3 : ℚ) :
    ServerState × List Event :=
  let s1 : ServerState := { s with currently_processing := true }
  let ev1 := broadcast_queue_status s1 n1
  let step2 : ServerState × List Event :=
    match outcome with
    | .ok text =>
        if ¬text.isEmpty ∧ ¬(pyStrip text).isEmpty then
          broadcast_transcription s1 text t.server_timestamp n2 (some t.queue_id)
        else (s1, [])
    | .error _ => (s1, [])
  let s3 : ServerState := { step2.1 with currently_processing := false }
  let ev3 := broadcast_queue_status s3 n3
  (s3, ev1 :: step2.2 ++ [ev3])

/-- The `queue_worker` loop run on a finite schedule of engine outcomes
(each with its three `time.time()` reads): take the next task from the
FIFO queue, process it with `workerStep`, continue.  The loop blocks
(`await queue.get()`) when the queue is empty. -/
def runWorker : ServerState → List (Except (List Char) (List Char) × ℚ × ℚ × ℚ) →
    ServerState × List Event
  | s, [] => (s, [])
  | s, (o, n1, n2, n3) :: rest =>
    match s.queue with
    | [] => (s, [])
    | t :: q =>
      let r := workerStep { s with queue := q } t o n1 n2 n3
      let r' := runWorker r.1 rest
      (r'.1, r.2 ++ r'.2)

/-! ## Summarization and export collaborators -/

/-- Result dictionary of `NotionClient.save_summary`
(notion_integration.py lines 32–58): `{"success": True, "url", "title"}` on
success (title extraction elided — it does not affect the success/message
contract) or `{"success": False, "message"}` on failure. -/
structure NotionResult where
  success : Bool
  url : Option (List Char)
  message : Option (List Char)
deriving DecidableEq

/-- Messages sent to the requesting client during a summarize flow
(websocket_service.py lines 124–182). -/
inductive SummarizeMsg where
  | summary_processing
  | notion_processing
  | summary_result (success : Bool) (summary : Option (List Char))
      (notion_res : Option NotionResult) (message : Option (List Char))
deriving DecidableEq

/-- `GeminiSummarizer.summarize` (ai_integration.py lines 31–72) with the
`generate_content_async` call abstracted as `engineOutcome`.  With no model
configured it returns a fixed notice; an engine exception is caught and
converted into the string `"Summarization error: " + str(e)` — it is
returned as an ordinary summary string, never re-raised. -/
def GeminiSummarizer.summarize (hasModel : Bool)
    (engineOutcome : Except (List Char) (List Char)) : List Char :=
  if !hasModel then "AI summarization not available (API key missing)".toList
  else
    match engineOutcome with
    | .ok t => t
    | .error e => "Summarization error: ".toList ++ e

/-- `NotionClient.save_summary` (notion_integration.py lines 32–58) with the
`pages.create` call abstracted as `createOutcome`; every exception is caught
and converted into `{"success": False, "message": str(e)}`. -/
def NotionClient.save_summary (available : Bool)
    (createOutcome : Except (List Char) (List Char)) : NotionResult :=
  if !available then ⟨false, none, some "Notion not configured".toList⟩
  else
    match createOutcome with
    | .ok url => ⟨true, some url, none⟩
    | .error e => ⟨false, none, some e⟩

/-- `" ".join(item["text"] for item in self.full_transcription)`. -/
def joinSpace (xs : List (List Char)) : List Char := List.intercalate [' '] xs

/-- `WebSocketServer.handle_summarize_request` (websocket_service.py lines
124–182), returning the sequence of messages sent to the requesting client.
The full text is the client-supplied text if truthy and nonblank, else the
joined transcript; a blank full text yields a `success = False` reply.
Otherwise `summary_processing` is sent, the summarizer is called (it never
raises, see `GeminiSummarizer.summarize`), and if the Notion client is
available `notion_processing` is sent and `save_summary` called (it catches
its own failures, so the surrounding `try` never fires).  The final
`summary_result` is sent with `success: True`, the summary, and the
`notion_result` (or `None`). -/
def handle_summarize_request (client_text : List Char)
    (log : List TranscriptionRecord) (hasModel : Bool)
    (engineOutcome : Except (List Char) (List Char)) (notionAvailable : Bool)
    (notionOutcome : Except (List Char) (List Char)) : List SummarizeMsg :=
  let full_text :=
    if ¬client_text.isEmpty ∧ ¬(pyStrip client_text).isEmpty then client_text
    else joinSpace (log.map (·.text))
  if (pyStrip full_text).isEmpty then
    [.summary_result false none none
      (some "No text available for summarization.".toList)]
  else
    let summary := GeminiSummarizer.summarize hasModel engineOutcome
    if notionAvailable then
      [.summary_processing, .notion_processing,
       .summary_result true (some summary)
         (some (NotionClient.save_summary true notionOutcome)) none]
    else
      [.summary_processing, .summary_result true (some summary) none none]

/-! ## Ordering machine for the transcription queue

A small-step model of the interaction between the ingestion path and the
single queue worker, tracking tasks by their `queue_id` (the monotone
counter of `handle_audio_data`, websocket_service.py lines 200–202):

* `enqueue` — `handle_audio_data` increments `queue_id_counter` and puts the
  task at the tail of the FIFO `asyncio.Queue` (`add_transcription_task`);
  it may fire at any time, also while the worker is busy.
* `start` — the worker (`queue_worker`) takes the *head* of the queue, but
  only when it is idle: the loop body `await`s the full processing of the
  current task before calling `queue.get()` again, so at most one task is
  ever in flight (`current : Option ℕ`).
* `finish` — the in-flight engine call completes; `accepted` abstracts
  whether the result text survives (`text and text.strip()`, plus a
  nonempty client set), in which case the record is appended to the
  transcript log.  The ghost `log` stores the `queue_id` of the task that
  produced each appended record, in append order.
-/

/-- Ghost-instrumented queue/worker state: the pending FIFO queue, the at
most one in-flight task, the transcript log (as producing `queue_id`s, in
append order) and the enqueue counter. -/
structure OrderState where
  queue : List ℕ
  current : Option ℕ
  log : List ℕ
  nextId : ℕ
deriving DecidableEq

/-- One transition of the queue system. -/
inductive OrderStep : OrderState → OrderState → Prop
  | enqueue (q : List ℕ) (c : Option ℕ) (l : List ℕ) (n : ℕ) :
      OrderStep ⟨q, c, l, n⟩ ⟨q ++ [n + 1], c, l, n + 1⟩
  | start (q l : List ℕ) (n i : ℕ) :
      OrderStep ⟨i :: q, none, l, n⟩ ⟨q, some i, l, n⟩
  | finish (q l : List ℕ) (n i : ℕ) (accepted : Bool) :
      OrderStep ⟨q, some i, l, n⟩
        ⟨q, none, if accepted then l ++ [i] else l, n⟩

/-- Initial server state: empty queue, idle worker, empty transcript,
counter at 0 (websocket_service.py `__init__`). -/
def initOrderState : OrderState := ⟨[], none, [], 0⟩

/-- States reachable from startup by any interleaving of enqueues and
worker steps. -/
def OrderReachable (s : OrderState) : Prop :=
  Relation.ReflTransGen OrderStep initOrderState s

/-- All task ids present in the system, in pipeline order: transcript log,
then the in-flight task, then the pending queue. -/
def allIds (s : OrderState) : List ℕ :=
  s.log ++ (s.current.toList ++ s.queue)

theorem orderStep_sublist {s s' : OrderState} (h : OrderStep s s')
    (hJ : (allIds s).Sublist (List.range' 1 s.nextId)) :
    (allIds s').Sublist (List.range' 1 s'.nextId) := by
  cases h with
  | enqueue q c l n =>
      have h2 : (allIds ⟨q, c, l, n⟩ ++ [n + 1]).Sublist
          (List.range' 1 n ++ [n + 1]) :=
        hJ.append (List.Sublist.refl [n + 1])
      simpa [allIds, List.range'_concat, Nat.add_comm, List.append_assoc] using h2
  | start q l n i =>
      simpa [allIds] using hJ
  | finish q l n i accepted =>
      cases accepted with
      | true => simpa [allIds, List.append_assoc] using hJ
      | false =>
          refine List.Sublist.trans ?_ (by simpa [allIds] using hJ)
          simp only [allIds, Option.toList]
          exact (List.Sublist.append_left
            (List.Sublist.append_left (List.sublist_cons_self i q) _) l)

theorem orderReachable_sublist (s : OrderState) (h : OrderReachable s) :
    (allIds s).Sublist (List.range' 1 s.nextId) := by
  induction h with
  | refl => simp [allIds, initOrderState]
  | tail _ hstep ih => exact orderStep_sublist hstep ih

/-! ## Claim theorems -/

/-- C1: the transcription queue is consumed by a single worker (structurally,
`OrderState.current : Option ℕ` holds at most one in-flight task, and
`OrderStep.start` fires only when it is `none`) strictly in FIFO enqueue
order, so in every reachable state the transcript log, read in append order,
is a subsequence of the arrival order `1, 2, …, nextId` of the assigned
`sequence_id`s — the completion order of the engine calls (the `finish`
steps) can never reorder it. -/
theorem transcript_order_matches_arrival (s : OrderState)
    (h : OrderReachable s) : s.log.Sublist (List.range' 1 s.nextId) :=
  (List.sublist_append_left s.log (s.current.toList ++ s.queue)).trans
    (orderReachable_sublist s h)

/-- Witness for C1: the concrete trace enqueue 1, enqueue 2, start 1,
finish 1 (accepted) reaches the state with transcript log `[1]` and counter
2, whose log is a subsequence of the arrival order `[1, 2]`. -/
theorem transcript_order_matches_arrival_witness :
    ([1] : List ℕ).Sublist (List.range' 1 2) := by
  have h1 : OrderStep ⟨[], none, [], 0⟩ ⟨[1], none, [], 1⟩ := by
    simpa using OrderStep.enqueue [] none [] 0
  have h2 : OrderStep ⟨[1], none, [], 1⟩ ⟨[1, 2], none, [], 2⟩ := by
    simpa using OrderStep.enqueue [1] none [] 1
  have h3 : OrderStep ⟨[1, 2], none, [], 2⟩ ⟨[2], some 1, [], 2⟩ :=
    OrderStep.start [2] [] 2 1
  have h4 : OrderStep ⟨[2], some 1, [], 2⟩ ⟨[2], none, [1], 2⟩ := by
    simpa using OrderStep.finish [2] [] 2 1 true
  exact transcript_order_matches_arrival ⟨[2], none, [1], 2⟩
    (Relation.ReflTransGen.tail
      (Relation.ReflTransGen.tail
        (Relation.ReflTransGen.tail
          (Relation.ReflTransGen.tail Relation.ReflTransGen.refl h1) h2) h3) h4)

/-- C6: on a call where the updated silence-run counter has reached
`silence_frames` and the accumulated buffer (with the new batch appended)
has at least `min_chunk_length` samples, `add_audio` emits the whole buffer
exactly when its level exceeds `min_audio_level` (compared on squares), and
in either case resets the buffer and the counter; in the low-level case
nothing is emitted (discard). -/
theorem segmenter_silence_boundary (b : AudioBuffer) (data : List ℚ)
    (hcnt : b.silence_frames ≤
      (if meanSq data < sq b.silence_threshold
       then b.current_silence_count + data.length else 0))
    (hlen : b.min_chunk_length ≤ (b.audio_chunk ++ data).length) :
    add_audio b data
      = ({ b with audio_chunk := [], current_silence_count := 0 },
         if sq b.min_audio_level < meanSq (b.audio_chunk ++ data)
         then some (b.audio_chunk ++ data) else none) := by
  unfold add_audio
  by_cases hq : sq b.min_audio_level < meanSq (b.audio_chunk ++ data)
  · rw [if_pos ⟨hcnt, hlen⟩, if_pos hq, if_pos hq]
  · rw [if_pos ⟨hcnt, hlen⟩, if_neg hq, if_neg hq]

/-- Witness for C6 (accepting branch): sample rate 2, silence threshold 1,
silence duration 1 s (2 frames), min level 1/10.  The buffer already holds
`[1, 1]` and the silent batch `[0, 0]` arrives: the silence run reaches 2,
the buffer holds 4 ≥ 1 samples, the whole-buffer mean square 1/2 exceeds
(1/10)², so the entire accumulation `[1, 1, 0, 0]` is emitted and the state
resets. -/
theorem segmenter_silence_boundary_witness :
    add_audio ⟨2, 1, 1, 1/10, 30, 0, [1, 1]⟩ [0, 0]
      = (⟨2, 1, 1, 1/10, 30, 0, []⟩, some [1, 1, 0, 0]) :=
  (segmenter_silence_boundary ⟨2, 1, 1, 1/10, 30, 0, [1, 1]⟩ [0, 0]
    (by with_unfolding_all decide) (by with_unfolding_all decide)).trans
    (by with_unfolding_all decide)

/-- C7 is falsified at the boundary: with sample rate 2 and
`max_audio_chunk_duration = 2` the buffer below *reaches* exactly
`2 × 2 = 4` samples of loud, non-silent audio, yet `add_audio` emits
nothing and keeps accumulating, because the source tests
`len(self.audio_chunk) > max_chunk_length` strictly. -/
theorem forced_split_not_at_exact_max :
    add_audio ⟨2, 1/100, 1, 1/10, 2, 0, [1, 1]⟩ [1, 1]
      = (⟨2, 1/100, 1, 1/10, 2, 0, [1, 1, 1, 1]⟩, none) := by
  with_unfolding_all decide

/-- C7 (amended): whenever the accumulated buffer *strictly exceeds*
`sample_rate * max_audio_chunk_duration` samples after appending the batch,
and the silence-emission condition — if it holds at all — finds the buffer
level above `min_audio_level` (otherwise the low-level discard empties the
buffer first and nothing is returned), `add_audio` returns the entire
accumulated buffer and resets buffer and counter, regardless of the silence
state and of the buffer's level. -/
theorem segmenter_forced_split (b : AudioBuffer) (data : List ℚ)
    (hforce : b.sample_rate * b.max_audio_chunk_duration
      < (b.audio_chunk ++ data).length)
    (hq : b.silence_frames ≤
        (if meanSq data < sq b.silence_threshold
         then b.current_silence_count + data.length else 0) →
      b.min_chunk_length ≤ (b.audio_chunk ++ data).length →
      sq b.min_audio_level < meanSq (b.audio_chunk ++ data)) :
    add_audio b data
      = ({ b with audio_chunk := [], current_silence_count := 0 },
         some (b.audio_chunk ++ data)) := by
  unfold add_audio
  by_cases hsil : b.silence_frames ≤
      (if meanSq data < sq b.silence_threshold
       then b.current_silence_count + data.length else 0)
    ∧ b.min_chunk_length ≤ (b.audio_chunk ++ data).length
  · rw [if_pos hsil, if_pos (hq hsil.1 hsil.2)]
  · rw [if_neg hsil, if_pos hforce]

/-- Witness for C7 (amended): continuous loud audio; the buffer grows to 5
samples, strictly more than `2 × 2 = 4`, with zero silence run, and the
whole buffer is emitted. -/
theorem segmenter_forced_split_witness :
    add_audio ⟨2, 1/100, 1, 1/10, 2, 0, [1, 1, 1]⟩ [1, 1]
      = (⟨2, 1/100, 1, 1/10, 2, 0, []⟩, some [1, 1, 1, 1, 1]) :=
  (segmenter_forced_split ⟨2, 1/100, 1, 1/10, 2, 0, [1, 1, 1]⟩ [1, 1]
    (by with_unfolding_all decide) (by with_unfolding_all decide)).trans
    (by with_unfolding_all decide)

/-- C10: every `queue_status` event the server constructs carries
`processing_count = pending_count + 1` when `currently_processing` is true
and `processing_count = pending_count` when it is false, and
`pending_count` is the (non-negative) size of the pending queue at
broadcast time. -/
theorem queue_status_fields_consistent (s : ServerState) (now : ℚ) :
    broadcast_queue_status s now
      = Event.queue_status
          (if s.currently_processing then (s.queue.length : ℤ) + 1
           else (s.queue.length : ℤ))
          (s.queue.length : ℤ) s.currently_processing now
      ∧ 0 ≤ (s.queue.length : ℤ) := by
  refine ⟨?_, Int.natCast_nonneg _⟩
  cases hb : s.currently_processing <;> simp [broadcast_queue_status, hb]

/-- C2 is falsified when no client is connected: the worker processes a task
whose engine call returns the accepted text `"hello"` (the validity filter
accepts it), yet — because `broadcast_transcription` starts with
`if self.clients and text.strip()` and the client set is empty (e.g. the
producing client disconnected while the task sat in the backlog) — no
`TranscriptionRecord` is appended and no `transcription` event is emitted,
only the two `queue_status` events. -/
theorem worker_drops_accepted_result_without_clients :
    workerStep ⟨[], [], [], false, 1⟩ ⟨[], 5, 1⟩ (Except.ok "hello".toList) 0 0 0
      = (⟨[], [], [], false, 1⟩,
         [Event.queue_status 1 0 true 0, Event.queue_status 0 0 false 0])
    ∧ is_valid_transcription defaultTranscriber "hello".toList = true := by
  constructor
  · with_unfolding_all decide
  · decide

/-- C2 (amended): for every transcription task whose engine call returns
text accepted by the validity filter (non-empty after trimming), *provided
at least one client is connected at broadcast time*, the worker appends the
record `{text, server_timestamp}` to the transcript log and broadcasts a
`transcription` event carrying that text, the enqueue-time
`server_timestamp` and the task's `queue_id`. -/
theorem worker_accepted_result_recorded (s : ServerState) (t : Task)
    (text : List Char) (n1 n2 n3 : ℚ)
    (hc : ¬s.clients.isEmpty) (ht : ¬(pyStrip text).isEmpty) :
    (workerStep s t (Except.ok text) n1 n2 n3).1.full_transcription
        = s.full_transcription ++ [⟨text, t.server_timestamp⟩]
      ∧ Event.transcription text t.server_timestamp n2 (some t.queue_id)
          ∈ (workerStep s t (Except.ok text) n1 n2 n3).2 := by
  have htext : ¬text.isEmpty := by
    intro h
    apply ht
    have : text = [] := by simpa using h
    simp [this, pyStrip]
  simp [workerStep, broadcast_transcription, hc, ht, htext]

/-- Witness for C2 (amended): one connected client, engine result `"hi"`,
enqueue timestamp 5, queue id 1: the record is appended and the
`transcription` event carries text, enqueue timestamp and queue id. -/
theorem worker_accepted_result_recorded_witness :
    (workerStep ⟨[7], [], [], false, 1⟩ ⟨[], 5, 1⟩
        (Except.ok "hi".toList) 0 0 0).1.full_transcription
        = [⟨"hi".toList, 5⟩]
      ∧ Event.transcription "hi".toList 5 0 (some 1)
          ∈ (workerStep ⟨[7], [], [], false, 1⟩ ⟨[], 5, 1⟩
              (Except.ok "hi".toList) 0 0 0).2 :=
  worker_accepted_result_recorded ⟨[7], [], [], false, 1⟩ ⟨[], 5, 1⟩
    "hi".toList 0 0 0 (by decide) (by decide)

/-- C3 is falsified on its own example: `"aaaa"` consists of four identical
consecutive characters, yet `is_valid_transcription` accepts it under the
default configuration, because the repetition loop runs
`for i in range(len(text) - 4)` and therefore never examines a window of
four that ends at the last character. -/
theorem is_valid_accepts_aaaa :
    is_valid_transcription defaultTranscriber "aaaa".toList = true := by decide

/-- C3 (amended): under the default configuration the validity filter
rejects any text whose trimmed form contains four identical consecutive
characters that are followed by at least one further character (a window
starting at `i` with `i + 4 < length`); a run of four ending at the very
last character is not detected, so `is_valid("aaaa")` is true while
`is_valid("aaaab")` is false. -/
theorem is_valid_rejects_interior_char_run (text : List Char) (i : ℕ)
    (hi : i + 4 < (pyStrip text).length)
    (h01 : (pyStrip text).getD i ' ' = (pyStrip text).getD (i + 1) ' ')
    (h12 : (pyStrip text).getD (i + 1) ' ' = (pyStrip text).getD (i + 2) ' ')
    (h23 : (pyStrip text).getD (i + 2) ' ' = (pyStrip text).getD (i + 3) ' ') :
    is_valid_transcription defaultTranscriber text = false := by
  have hrej : charRepReject defaultTranscriber (pyStrip text) = true := by
    unfold charRepReject
    rw [List.any_eq_true]
    refine ⟨i, List.mem_range.mpr ?_, ?_⟩
    · show i < (pyStrip text).length - defaultTranscriber.max_repetition_chars
      have : defaultTranscriber.max_repetition_chars = 4 := rfl
      omega
    · simp only [List.getD, List.get?_eq_getElem?] at h01 h12 h23
      simp [h01, h12, h23, defaultTranscriber]
  unfold is_valid_transcription
  rw [hrej]
  simp

/-- Witness for C3 (amended): `"aaaab"` has an interior run of four `a`s
(window starting at index 0, followed by `b`) and is rejected. -/
theorem is_valid_rejects_interior_char_run_witness :
    is_valid_transcription defaultTranscriber "aaaab".toList = false :=
  is_valid_rejects_interior_char_run "aaaab".toList 0
    (by decide) (by decide) (by decide) (by decide)

/-- C4 is falsified on its own example: `"go go go"` splits into only three
words, below the `len(words) >= max_repetition_words * 2 = 4` guard, so the
word-repetition rule is never evaluated and `is_valid_transcription`
accepts the text under the default configuration. -/
theorem is_valid_accepts_go_go_go :
    is_valid_transcription defaultTranscriber "go go go".toList = true := by
  decide

/-- C4 (amended): under the default configuration the validity filter
rejects any trimmed text whose whitespace-split word list has at least
`2 * max_repetition_words = 4` words and contains
`max_repetition_words + 1 = 3` consecutive identical words; with only three
words the guard fails, so `is_valid("go go go")` is true while
`is_valid("go go go go")` is false. -/
theorem is_valid_rejects_triple_word_run (text : List Char) (i : ℕ)
    (hw : 4 ≤ (pySplit (pyStrip text)).length)
    (hi : i + 2 < (pySplit (pyStrip text)).length)
    (h1 : (pySplit (pyStrip text)).getD i []
        = (pySplit (pyStrip text)).getD (i + 1) [])
    (h2 : (pySplit (pyStrip text)).getD i []
        = (pySplit (pyStrip text)).getD (i + 2) []) :
    is_valid_transcription defaultTranscriber text = false := by
  have hrej : wordRepReject defaultTranscriber (pySplit (pyStrip text)) = true := by
    unfold wordRepReject
    rw [if_pos (by simpa [defaultTranscriber] using hw)]
    rw [List.any_eq_true]
    refine ⟨i, List.mem_range.mpr ?_, ?_⟩
    · show i < (pySplit (pyStrip text)).length - defaultTranscriber.max_repetition_words
      have : defaultTranscriber.max_repetition_words = 2 := rfl
      omega
    · have hr : List.range' 1 defaultTranscriber.max_repetition_words = [1, 2] := rfl
      rw [hr]
      simp only [List.getD, List.get?_eq_getElem?] at h1 h2
      simp [h1, h2, h1.symm.trans h2]
  unfold is_valid_transcription
  rw [hrej]
  simp

/-- Witness for C4 (amended): `"go go go go"` has four words with three
consecutive identical ones starting at index 0 and is rejected. -/
theorem is_valid_rejects_triple_word_run_witness :
    is_valid_transcription defaultTranscriber "go go go go".toList = false :=
  is_valid_rejects_triple_word_run "go go go go".toList 0
    (by decide) (by decide) (by decide) (by decide)

/-- C5 is falsified: a summarization engine failure (`generate_content_async`
raising `"boom"`) is caught *inside* `GeminiSummarizer.summarize` and
returned as the ordinary string `"Summarization error: boom"`, so
`handle_summarize_request` delivers a `summary_result` with
`success = true` whose summary is the error string — a failed
summarization does produce `success = true`, and no
`{success: false, message}` payload is sent. -/
theorem summarize_engine_failure_reported_as_success :
    handle_summarize_request "hello".toList [] true
        (Except.error "boom".toList) false (Except.ok [])
      = [SummarizeMsg.summary_processing,
         SummarizeMsg.summary_result true
           (some "Summarization error: boom".toList) none none] := by
  with_unfolding_all decide

/-- C5 (amended): collaborator failures never escape the summarize flow as
fatal errors — the requesting client always receives a final
`summary_result` — but they are not reported as `success = false`: with a
nonblank source text, a summarization engine failure is delivered with
`success = true` and the string `"Summarization error: " + e` as the
summary, and an export failure is delivered with `success = true` and a
nested `notion_result` of `{success: false, message}`.  Only the
blank-text case produces `success = false`. -/
theorem summarize_failures_contained (client_text : List Char)
    (log : List TranscriptionRecord) (e en : List Char)
    (hft : (pyStrip (if ¬client_text.isEmpty ∧ ¬(pyStrip client_text).isEmpty
        then client_text else joinSpace (log.map (·.text)))).isEmpty = false) :
    handle_summarize_request client_text log true (Except.error e) true
        (Except.error en)
      = [SummarizeMsg.summary_processing, SummarizeMsg.notion_processing,
         SummarizeMsg.summary_result true
           (some ("Summarization error: ".toList ++ e))
           (some ⟨false, none, some en⟩) none] := by
  simp at hft
  simp [handle_summarize_request, hft, GeminiSummarizer.summarize,
    NotionClient.save_summary]

/-- Witness for C5 (amended): client text `"hello"`, engine failure `"x"`,
export failure `"y"`. -/
theorem summarize_failures_contained_witness :
    handle_summarize_request "hello".toList [] true
        (Except.error "x".toList) true (Except.error "y".toList)
      = [SummarizeMsg.summary_processing, SummarizeMsg.notion_processing,
         SummarizeMsg.summary_result true
           (some ("Summarization error: ".toList ++ "x".toList))
           (some ⟨false, none, some "y".toList⟩) none] :=
  summarize_failures_contained "hello".toList [] "x".toList "y".toList
    (by decide)

/-- C8: when the engine call for the task at the head of the queue raises
(`Except.error`) — or returns an unusable empty result (`Except.ok []`, the
value `transcribe` produces for its own internal failures) — the worker
treats the task as complete without retrying, leaves the transcript log
untouched, resets `currently_processing` to false, emits the queue-status
broadcasts (and no `transcription` event), and processes the remaining
schedule exactly as if started from the post-failure state: a single task
failure never halts the queue worker loop. -/
theorem queue_worker_error_isolated (cl : List ℕ) (t : Task) (q : List Task)
    (log : List TranscriptionRecord) (flag : Bool) (cnt : ℕ) (e : List Char)
    (n1 n2 n3 : ℚ)
    (rest : List (Except (List Char) (List Char) × ℚ × ℚ × ℚ)) :
    runWorker ⟨cl, t :: q, log, flag, cnt⟩ ((Except.error e, n1, n2, n3) :: rest)
      = ((runWorker ⟨cl, q, log, false, cnt⟩ rest).1,
         Event.queue_status ((q.length : ℤ) + 1) (q.length : ℤ) true n1
           :: Event.queue_status (q.length : ℤ) (q.length : ℤ) false n3
           :: (runWorker ⟨cl, q, log, false, cnt⟩ rest).2)
    ∧ runWorker ⟨cl, t :: q, log, flag, cnt⟩ ((Except.ok [], n1, n2, n3) :: rest)
      = ((runWorker ⟨cl, q, log, false, cnt⟩ rest).1,
         Event.queue_status ((q.length : ℤ) + 1) (q.length : ℤ) true n1
           :: Event.queue_status (q.length : ℤ) (q.length : ℤ) false n3
           :: (runWorker ⟨cl, q, log, false, cnt⟩ rest).2) := by
  constructor <;> simp [runWorker, workerStep, broadcast_queue_status]

/-- C9: a send failure (peer closed) during `broadcast_message` removes
exactly the failing connections from the registered set and never aborts
delivery: every registered connection whose send does not fail receives the
event, and a connection remains registered afterwards iff its send did not
fail. -/
theorem broadcast_send_failure_isolated (clients : List ℕ) (closed : ℕ → Bool)
    (c : ℕ) (hmem : c ∈ clients) (hok : closed c = false) :
    c ∈ (broadcast_message clients closed).1
      ∧ ∀ d ∈ clients,
          (d ∈ (broadcast_message clients closed).2 ↔ closed d = false) := by
  have hne : clients.isEmpty = false := by
    cases clients with
    | nil => cases hmem
    | cons a l => rfl
  unfold broadcast_message
  rw [hne]
  simp only [Bool.false_eq_true, if_false]
  refine ⟨List.mem_filter.mpr ⟨hmem, by simp [hok]⟩, ?_⟩
  intro d hd
  simp [List.removeAll, List.mem_filter, List.elem_iff, hd]

/-- Witness for C9: clients `[1, 2, 3]`, the send to client 2 fails; client
1 still receives the event, and afterwards exactly clients 1 and 3 remain
registered. -/
theorem broadcast_send_failure_isolated_witness :
    1 ∈ (broadcast_message [1, 2, 3] (· == 2)).1
      ∧ ∀ d ∈ [1, 2, 3],
          (d ∈ (broadcast_message [1, 2, 3] (· == 2)).2 ↔ (d == 2) = false) :=
  broadcast_send_failure_isolated [1, 2, 3] (· == 2) 1 (by decide) (by decide)

/-- Sanity checks of the remaining validity-filter examples from the spec's
test list (§8), which the code does satisfy: a 5-run is rejected, digits
only and the empty string are rejected, a normal sentence is accepted. -/
theorem is_valid_spec_examples :
    is_valid_transcription defaultTranscriber "aaaaa".toList = false
      ∧ is_valid_transcription defaultTranscriber "12345".toList = false
      ∧ is_valid_transcription defaultTranscriber "".toList = false
      ∧ is_valid_transcription defaultTranscriber "hello world".toList = true := by
  refine ⟨by decide, by decide, by decide, by decide⟩

end WhisperRT
